import Mathlib

/-!
Verification of the tamesuke provisioner (src/provisioner.py and
src/api/...) against its natural-language specification.  The Python code
is shallowly embedded: pure helpers become Lean functions, the external
platforms (compute, tunnel broker, DNS zone, artifact store) become
explicit state, remote failures become injectable responses, and every
raised Python exception becomes an `Except` error value.
-/

namespace Tamesuke

/-- Error taxonomy: one constructor per distinct raise site / error kind of
the source.  `injected k` stands for an arbitrary exception raised by the
external platform during step `k` of provisioning (failure injection). -/
inductive Err where
  | validationLen : Err
  | validationCharset : Err
  | validationHyphen : Err
  | unsupportedKind : Err
  | exhaustion : Err
  | uploadFailed : Nat → Err
  | timeoutErr : Err
  | notFound : Err
  | injected : Nat → Err
  deriving DecidableEq, Repr

deriving instance DecidableEq for Except

/-- Characters matched by the character class of the regex
r'^[a-z0-9-]+$' in provisioner._validate_subdomain (line 128) and in
api/routes/subdomain.py (line 33). -/
def subChar (c : Char) : Bool :=
  (decide ('a' ≤ c) && decide (c ≤ 'z')) ||
  (decide ('0' ≤ c) && decide (c ≤ '9')) || c == '-'

/-- Python re.match with the pattern r'^[a-z0-9-]+$': the match must start
at position 0, consume one or more class characters, and end at a position
where the dollar anchor holds.  In Python, the dollar anchor matches at the
end of the string OR just before a newline at the end of the string, so a
single trailing newline is tolerated by this pattern. -/
def pyMatchSub (s : List Char) : Bool :=
  (!s.isEmpty && s.all subChar) ||
  (s.getLast? == some '\n' && (!s.dropLast.isEmpty && s.dropLast.all subChar))

/-- TamesukeProvisioner._validate_subdomain (provisioner.py lines 111-137);
api/routes/subdomain.py lines 20-42 implements the identical three checks.
Checks, in order: length at most 12, the regex above, no leading or
trailing hyphen. -/
def validateSubdomain (s : String) : Except Err Unit :=
  if 12 < s.length then .error .validationLen
  else if !pyMatchSub s.data then .error .validationCharset
  else if s.data.head? == some '-' || s.data.getLast? == some '-' then
    .error .validationHyphen
  else .ok ()

/-- TamesukeProvisioner._wait_for_ready, probe classification (lines
576-582): an attempt is "ready" exactly when the GET produced a response
(`some status`) whose status is strictly below 500; a connection-level
requests exception (`none`) is not ready. -/
def probeReady (o : Option Nat) : Bool :=
  match o with
  | some s => decide (s < 500)
  | none => false

/-- TamesukeProvisioner._wait_for_ready (provisioner.py lines 564-588).
The loop body is entered only while the elapsed time is below the
timeout; each iteration issues one GET (whose outcome is the oracle
`p i`, taking `d i` seconds), returns immediately when it is ready,
and otherwise sleeps a fixed 10 seconds before re-checking the clock.
Returns the list of issued probes as (attempt index, issue time), and
the overall outcome; leaving the loop raises the timeout exception
(line 588). -/
def waitForReady (p : Nat → Option Nat) (d : Nat → Nat)
    (timeout i elapsed : Nat) : List (Nat × Nat) × Except Err Unit :=
  if h : elapsed < timeout then
    if probeReady (p i) then ([(i, elapsed)], .ok ())
    else
      let r := waitForReady p d timeout (i + 1) (elapsed + d i + 10)
      ((i, elapsed) :: r.1, r.2)
  else ([], .error .timeoutErr)
termination_by timeout - elapsed
decreasing_by omega

/-- The core characters the regex actually constrains: the whole string,
except that one trailing newline (if present) is outside the match. -/
def coreChars (l : List Char) : List Char :=
  if l.getLast? = some '\n' then l.dropLast else l

/-- A Cloudflare tunnel as the code observes it: an identifier, the exact
name it was created under, and the random secret it is bound to. -/
structure TunnelRec where
  id : Nat
  name : String
  secret : String
  deriving DecidableEq, Repr

/-- The tunnel broker's state: current tunnels plus the identifier the
next create call will assign (identifiers are server-assigned). -/
structure TunnelSvc where
  tunnels : List TunnelRec
  nextId : Nat
  deriving DecidableEq, Repr

/-- The remote delete call on the tunnel broker.  `delFail id = true`
models the broker answering the delete of `id` with an error (for
example a not-found response); the Python client raises in that case. -/
def tunnelDelete (svc : TunnelSvc) (delFail : Nat → Bool) (id : Nat) :
    Except Err TunnelSvc :=
  if delFail id then .error .notFound
  else .ok { svc with tunnels := svc.tunnels.filter (fun t => t.id != id) }

/-- The for-loop of _create_tunnel (lines 363-369): iterate over the list
result, re-check the name, and delete each match.  A delete error is not
caught anywhere in _create_tunnel, so it propagates. -/
def tunnelPreCleanGo (delFail : Nat → Bool) (name : String) :
    List TunnelRec → TunnelSvc → Except Err TunnelSvc
  | [], svc => .ok svc
  | t :: rest, svc =>
    if t.name == name then
      match tunnelDelete svc delFail t.id with
      | .error e => .error e
      | .ok svc' => tunnelPreCleanGo delFail name rest svc'
    else tunnelPreCleanGo delFail name rest svc

/-- The idempotent pre-clean of _create_tunnel: list tunnels filtered by
the exact target name (the API call at lines 357-360), then delete every
match. -/
def tunnelPreClean (svc : TunnelSvc) (delFail : Nat → Bool)
    (name : String) : Except Err TunnelSvc :=
  tunnelPreCleanGo delFail name (svc.tunnels.filter (fun t => t.name == name)) svc

/-- TamesukeProvisioner._create_tunnel (lines 340-379) acting on the
broker state: pre-clean every same-named tunnel, then create one new
tunnel bound to the freshly generated `secret` (the randomness is an
input).  Returns the new tunnel's identifier and the new state. -/
def create_tunnel (svc : TunnelSvc) (delFail : Nat → Bool)
    (secret name : String) : Except Err (Nat × TunnelSvc) :=
  match tunnelPreClean svc delFail name with
  | .error e => .error e
  | .ok s1 =>
    .ok (s1.nextId,
      { tunnels := s1.tunnels ++ [⟨s1.nextId, name, secret⟩],
        nextId := s1.nextId + 1 })

/-- A DNS record as the code observes it: identifier, fully qualified
name, CNAME target, TTL and the proxied flag. -/
structure DnsRec where
  id : Nat
  name : String
  content : String
  ttl : Nat
  proxied : Bool
  deriving DecidableEq, Repr

/-- The DNS zone's state. -/
structure DnsSvc where
  records : List DnsRec
  nextId : Nat
  deriving DecidableEq, Repr

/-- The remote delete call on the DNS zone, with the same injectable
error response as the tunnel broker's. -/
def dnsDelete (svc : DnsSvc) (delFail : Nat → Bool) (id : Nat) :
    Except Err DnsSvc :=
  if delFail id then .error .notFound
  else .ok { svc with records := svc.records.filter (fun r => r.id != id) }

/-- The for-loop of _create_dns_record (lines 447-453): delete every
listed record whose name equals the target fqdn; a delete error
propagates (no try/except around it). -/
def dnsPreCleanGo (delFail : Nat → Bool) (fqdn : String) :
    List DnsRec → DnsSvc → Except Err DnsSvc
  | [], svc => .ok svc
  | r :: rest, svc =>
    if r.name == fqdn then
      match dnsDelete svc delFail r.id with
      | .error e => .error e
      | .ok svc' => dnsPreCleanGo delFail fqdn rest svc'
    else dnsPreCleanGo delFail fqdn rest svc

/-- The pre-clean of _create_dns_record: list records by the fqdn
(lines 441-444), then delete each match. -/
def dnsPreClean (svc : DnsSvc) (delFail : Nat → Bool)
    (fqdn : String) : Except Err DnsSvc :=
  dnsPreCleanGo delFail fqdn (svc.records.filter (fun r => r.name == fqdn)) svc

/-- TamesukeProvisioner._create_dns_record (lines 428-469): pre-clean,
then create one CNAME record with automatic TTL (1), proxied, pointing
at the tunnel's cfargotunnel alias.  Returns the new record id. -/
def create_dns_record (svc : DnsSvc) (delFail : Nat → Bool)
    (sub domain : String) (tunnelId : Nat) : Except Err (Nat × DnsSvc) :=
  let fqdn := sub ++ "." ++ domain
  match dnsPreClean svc delFail fqdn with
  | .error e => .error e
  | .ok s1 =>
    .ok (s1.nextId,
      { records := s1.records ++
          [⟨s1.nextId, fqdn, toString tunnelId ++ ".cfargotunnel.com", 1, true⟩],
        nextId := s1.nextId + 1 })

/-- External calls the provisioner makes, as observable trace events.
Compensation calls of the rollback path reuse the same constructors. -/
inductive Ev where
  | clusterList : Ev
  | tunnelList (name : String) : Ev
  | tunnelDel (id : Nat) : Ev
  | tunnelCreate (name : String) : Ev
  | tokenGet (id : Nat) : Ev
  | configPut (id : Nat) : Ev
  | dnsList (fqdn : String) : Ev
  | dnsDel (id : Nat) : Ev
  | dnsCreate (sub : String) : Ev
  | fsPut (path : String) : Ev
  | fsDel (path : String) : Ev
  | lxcClone (tmpl newid : Nat) : Ev
  | lxcStart (id : Nat) : Ev
  | lxcStop (id : Nat) : Ev
  | lxcDel (id : Nat) : Ev
  | readyWait (url : String) : Ev
  deriving DecidableEq, Repr

/-- The combined state of the four external platforms as one world:
compute inventory and running set, tunnel broker, tunnel ingress
configurations, token issuance (an oracle), DNS zone, artifact store
files, the artifact store's next PUT response status, and the clock
reading used for created_at. -/
structure World where
  vms : List Nat
  running : List Nat
  tsvc : TunnelSvc
  configs : List (Nat × List (Option String × String))
  tokenOf : Nat → String
  dsvc : DnsSvc
  files : List (String × String)
  fsPutStatus : Nat
  now : String

/-- Keys of the created_resources dict (provision lines 250, 260, 273,
284, 285); the dict is insertion ordered, so the ledger is an
association list in insertion order. -/
inductive LKey where
  | tunnelId : LKey
  | dnsRecordId : LKey
  | vmid : LKey
  | metadataUploaded : LKey
  deriving DecidableEq, Repr

/-- Dictionary lookup on the ledger (resources.get(key) /
'key' in resources). -/
def ledgerGet (l : List (LKey × Nat)) (k : LKey) : Option Nat :=
  (l.find? (fun e => e.1 == k)).map Prod.snd

/-- self.template_map (lines 68-72): only nginx is currently mapped. -/
def templateMap (k : String) : Option Nat :=
  if k == "nginx" then some 8011 else none

/-- self.port_map (lines 75-79). -/
def portMap (k : String) : Option Nat :=
  if k == "nginx" then some 80
  else if k == "growi" then some 3000
  else if k == "snipeit" then some 80
  else none

/-- TamesukeProvisioner._get_next_vmid (lines 324-338): the first value
of range(9000, 10000) not in the live inventory, else exhaustion. -/
def get_next_vmid (vms : List Nat) : Except Err Nat :=
  match (List.range' 9000 1000).find? (fun v => !vms.contains v) with
  | some v => .ok v
  | none => .error .exhaustion

/-- Step 2 of provision: _create_tunnel acting on the world, together
with the external calls it makes.  Inside a provisioning run the broker
answers pre-clean deletes normally (failures of the whole step are
injected at step granularity by the saga model). -/
def create_tunnel_w (w : World) (vmid : Nat) (sub secret : String) :
    Except Err (Nat × World) × List Ev :=
  let name := "service-" ++ toString vmid ++ "-" ++ sub
  let ms := w.tsvc.tunnels.filter (fun t => t.name == name)
  let evs := Ev.tunnelList name :: ms.map (fun t => Ev.tunnelDel t.id) ++
    [Ev.tunnelCreate name]
  match create_tunnel w.tsvc (fun _ => false) secret name with
  | .error e => (.error e, evs)
  | .ok (tid, s') => (.ok (tid, { w with tsvc := s' }), evs)

/-- The ingress rule list _configure_tunnel writes (lines 410-420): the
hostname rule first, the unconditional http_status:404 catch-all last. -/
def ingressFor (sub domain : String) (port : Nat) :
    List (Option String × String) :=
  [(some (sub ++ "." ++ domain), "http://localhost:" ++ toString port),
   (none, "http_status:404")]

/-- Step 4 of provision: _configure_tunnel (lines 398-426). -/
def configure_tunnel (w : World) (tid : Nat) (sub kind domain : String) :
    World × List Ev :=
  let port := (portMap kind).getD 0
  ({ w with configs := (tid, ingressFor sub domain port) ::
      w.configs.filter (fun p => p.1 != tid) }, [Ev.configPut tid])

/-- Step 5 of provision: _create_dns_record acting on the world. -/
def create_dns_w (w : World) (sub domain : String) (tid : Nat) :
    Except Err (Nat × World) × List Ev :=
  let fqdn := sub ++ "." ++ domain
  let ms := w.dsvc.records.filter (fun r => r.name == fqdn)
  let evs := Ev.dnsList fqdn :: ms.map (fun r => Ev.dnsDel r.id) ++
    [Ev.dnsCreate sub]
  match create_dns_record w.dsvc (fun _ => false) sub domain tid with
  | .error e => (.error e, evs)
  | .ok (rid, s') => (.ok (rid, { w with dsvc := s' }), evs)

/-- The metadata document _create_metadata builds (lines 471-503), with
the dict's field order preserved. -/
structure Metadata where
  vmid : Nat
  hostname : String
  subdomain : String
  customerEmail : String
  ossType : String
  url : String
  tunnelToken : String
  createdAt : String
  deriving DecidableEq, Repr

/-- A JSON string literal (the metadata fields of this system contain no
characters needing escapes). -/
def jsonStr (s : String) : String := "\"" ++ s ++ "\""

/-- json.dumps(metadata, indent=2) for the fixed metadata shape
(braces written as their escape codes). -/
def metadataJson (m : Metadata) : String :=
  "\x7b\n" ++
  "  \"vmid\": " ++ toString m.vmid ++ ",\n" ++
  "  \"hostname\": " ++ jsonStr m.hostname ++ ",\n" ++
  "  \"subdomain\": " ++ jsonStr m.subdomain ++ ",\n" ++
  "  \"customer_email\": " ++ jsonStr m.customerEmail ++ ",\n" ++
  "  \"oss_type\": " ++ jsonStr m.ossType ++ ",\n" ++
  "  \"url\": " ++ jsonStr m.url ++ ",\n" ++
  "  \"tunnel_token\": " ++ jsonStr m.tunnelToken ++ ",\n" ++
  "  \"created_at\": " ++ jsonStr m.createdAt ++ "\n\x7d"

/-- Step 6 of provision: _create_metadata (lines 471-503).  The document
is a pure function of its inputs and the clock; duration_days is not
among them. -/
def create_metadata (w : World) (vmid : Nat)
    (email sub kind domain token : String) : Metadata :=
  ⟨vmid, sub, sub, email, kind, "https://" ++ sub ++ "." ++ domain,
    token, w.now⟩

/-- The artifact-store path of _upload_metadata (line 515), deterministic
in the vmid. -/
def metaPath (vmid : Nat) : String :=
  "/upload/metadata-" ++ toString vmid ++ ".json"

/-- Step 7 of provision: _upload_metadata (lines 505-526).  PUTs the
serialized document; raises unless the response status is one of
200, 201, 204 (line 525). -/
def upload_metadata (w : World) (vmid : Nat) (m : Metadata) :
    Except Err World × List Ev :=
  let path := metaPath vmid
  if w.fsPutStatus == 200 || w.fsPutStatus == 201 || w.fsPutStatus == 204 then
    (.ok { w with files :=
        w.files.filter (fun f => f.1 != path) ++ [(path, metadataJson m)] },
     [Ev.fsPut path])
  else (.error (.uploadFailed w.fsPutStatus), [Ev.fsPut path])

/-- Step 8 of provision: _clone_lxc (lines 528-550): full clone of the
template for the kind onto the new vmid. -/
def clone_lxc (w : World) (vmid : Nat) (kind : String) : World × List Ev :=
  ({ w with vms := w.vms ++ [vmid] },
   [Ev.lxcClone ((templateMap kind).getD 0) vmid])

/-- Step 9 of provision: _start_lxc (lines 552-562). -/
def start_lxc (w : World) (vmid : Nat) : World × List Ev :=
  ({ w with running := w.running ++ [vmid] }, [Ev.lxcStart vmid])

/-- TamesukeProvisioner._rollback (lines 139-208): consult the ledger
key by key in the fixed textual order of the four blocks — LXC (stop,
whose own failure is silently swallowed, then delete), metadata file,
DNS record, tunnel — attempting each compensation, swallowing every
compensation failure (`cfail` injects remote failures), and returning
the resulting world plus the list of compensation calls attempted. -/
def rollback (w : World) (cfail : Ev → Bool) (l : List (LKey × Nat)) :
    World × List Ev :=
  let s1 :=
    match ledgerGet l .vmid with
    | some v =>
      let ws := if cfail (Ev.lxcStop v) then w
                else { w with running := w.running.filter (fun x => x != v) }
      let wd := if cfail (Ev.lxcDel v) then ws
                else { ws with vms := ws.vms.filter (fun x => x != v) }
      (wd, [Ev.lxcStop v, Ev.lxcDel v])
    | none => (w, [])
  let s2 :=
    match ledgerGet l .metadataUploaded with
    | some _ =>
      match ledgerGet l .vmid with
      | some v =>
        if v != 0 then
          let wm := if cfail (Ev.fsDel (metaPath v)) then s1.1
                    else { s1.1 with files :=
                      s1.1.files.filter (fun f => f.1 != metaPath v) }
          (wm, [Ev.fsDel (metaPath v)])
        else (s1.1, [])
      | none => (s1.1, [])
    | none => (s1.1, [])
  let s3 :=
    match ledgerGet l .dnsRecordId with
    | some rid =>
      let recs := s2.1.dsvc.records.filter (fun (r : DnsRec) => r.id != rid)
      let wd := if cfail (Ev.dnsDel rid) then s2.1
                else { s2.1 with dsvc := { s2.1.dsvc with records := recs } }
      (wd, [Ev.dnsDel rid])
    | none => (s2.1, [])
  let s4 :=
    match ledgerGet l .tunnelId with
    | some tid =>
      let ts := s3.1.tsvc.tunnels.filter (fun (t : TunnelRec) => t.id != tid)
      let wt := if cfail (Ev.tunnelDel tid) then s3.1
                else { s3.1 with tsvc := { s3.1.tsvc with tunnels := ts } }
      (wt, [Ev.tunnelDel tid])
    | none => (s3.1, [])
  (s4.1, s1.2 ++ s2.2 ++ s3.2 ++ s4.2)

/-- The dict provision returns on success (lines 302-307). -/
structure ProvResult where
  vmid : Nat
  tunnelId : Nat
  url : String
  status : String
  deriving DecidableEq, Repr

/-- Everything one provisioning run produces or leaves behind: the
returned or raised result, the final world, the final ledger, the full
external-call trace, whether rollback ran and which compensation calls
it made, the world at the instant the exception was caught (before
rollback), a snapshot of (ledger, world) after each completed step, and
the log lines. -/
structure RunOut where
  result : Except Err ProvResult
  world : World
  ledger : List (LKey × Nat)
  trace : List Ev
  rolledBack : Bool
  comps : List Ev
  failWorld : Option World
  hist : List (List (LKey × Nat) × World)
  log : List String

/-- The except-branch of provision (lines 319-322): run rollback on what
was created, then re-raise the original error unchanged. -/
def failOut (cfail : Ev → Bool) (e : Err) (w : World)
    (l : List (LKey × Nat)) (tr : List Ev)
    (hist : List (List (LKey × Nat) × World)) : RunOut :=
  let rb := rollback w cfail l
  ⟨.error e, rb.1, l, tr ++ rb.2, true, rb.2, some w, hist, []⟩

/-- The try-block of TamesukeProvisioner.provision (lines 239-322):
validation and kind check (outside the try: their failures are raised
directly, without rollback), then the ten steps in order, appending to
created_resources exactly where the source does (tunnel_id after step 2,
dns_record_id after step 5, vmid then metadata_uploaded after step 7).
`inj k = some e` makes step k raise e before taking effect (failure
injection); any step failure triggers rollback and the re-raise. -/
def provisionBody (w0 : World) (inj : Nat → Option Err) (cfail : Ev → Bool)
    (email kind sub domain secret : String) : RunOut :=
  match validateSubdomain sub with
  | .error e => ⟨.error e, w0, [], [], false, [], none, [], []⟩
  | .ok _ =>
  if (templateMap kind).isNone then
    ⟨.error .unsupportedKind, w0, [], [], false, [], none, [], []⟩
  else
    match inj 1 with
    | some e => failOut cfail e w0 [] [] []
    | none =>
    match get_next_vmid w0.vms with
    | .error e => failOut cfail e w0 [] [Ev.clusterList] []
    | .ok vmid =>
    let tr1 := [Ev.clusterList]
    let h1 := [(([] : List (LKey × Nat)), w0)]
    match inj 2 with
    | some e => failOut cfail e w0 [] tr1 h1
    | none =>
    match create_tunnel_w w0 vmid sub secret with
    | (.error e, evs) => failOut cfail e w0 [] (tr1 ++ evs) h1
    | (.ok (tid, w2), evs2) =>
    let l2 := [(LKey.tunnelId, tid)]
    let tr2 := tr1 ++ evs2
    let h2 := h1 ++ [(l2, w2)]
    match inj 3 with
    | some e => failOut cfail e w2 l2 tr2 h2
    | none =>
    let token := w2.tokenOf tid
    let tr3 := tr2 ++ [Ev.tokenGet tid]
    let h3 := h2 ++ [(l2, w2)]
    match inj 4 with
    | some e => failOut cfail e w2 l2 tr3 h3
    | none =>
    match configure_tunnel w2 tid sub kind domain with
    | (w4, evs4) =>
    let tr4 := tr3 ++ evs4
    let h4 := h3 ++ [(l2, w4)]
    match inj 5 with
    | some e => failOut cfail e w4 l2 tr4 h4
    | none =>
    match create_dns_w w4 sub domain tid with
    | (.error e, evs) => failOut cfail e w4 l2 (tr4 ++ evs) h4
    | (.ok (rid, w5), evs5) =>
    let l5 := l2 ++ [(LKey.dnsRecordId, rid)]
    let tr5 := tr4 ++ evs5
    let h5 := h4 ++ [(l5, w5)]
    match inj 6 with
    | some e => failOut cfail e w5 l5 tr5 h5
    | none =>
    let m := create_metadata w5 vmid email sub kind domain token
    let h6 := h5 ++ [(l5, w5)]
    match inj 7 with
    | some e => failOut cfail e w5 l5 tr5 h6
    | none =>
    match upload_metadata w5 vmid m with
    | (.error e, evs) => failOut cfail e w5 l5 (tr5 ++ evs) h6
    | (.ok w7, evs7) =>
    let l7 := l5 ++ [(LKey.vmid, vmid), (LKey.metadataUploaded, 1)]
    let tr7 := tr5 ++ evs7
    let h7 := h6 ++ [(l7, w7)]
    match inj 8 with
    | some e => failOut cfail e w7 l7 tr7 h7
    | none =>
    match clone_lxc w7 vmid kind with
    | (w8, evs8) =>
    let tr8 := tr7 ++ evs8
    let h8 := h7 ++ [(l7, w8)]
    match inj 9 with
    | some e => failOut cfail e w8 l7 tr8 h8
    | none =>
    match start_lxc w8 vmid with
    | (w9, evs9) =>
    let tr9 := tr8 ++ evs9
    let h9 := h8 ++ [(l7, w9)]
    let url := "https://" ++ sub ++ "." ++ domain
    match inj 10 with
    | some e => failOut cfail e w9 l7 (tr9 ++ [Ev.readyWait url]) h9
    | none =>
    let tr10 := tr9 ++ [Ev.readyWait url]
    let h10 := h9 ++ [(l7, w9)]
    ⟨.ok ⟨vmid, tid, url, "active"⟩, w9, l7, tr10, false, [], none, h10, []⟩

/-- The log lines provision prints before doing anything (lines
229-237); the duration_days argument appears here and nowhere else. -/
def headerLog (email kind sub domain : String) (days : Nat) : List String :=
  ["customer: " ++ email, "oss: " ++ kind, "subdomain: " ++ sub,
   "domain: " ++ domain, "days: " ++ toString days]

/-- TamesukeProvisioner.provision (lines 210-322): print the header
(the only consumer of duration_days), then run the saga body. -/
def provision (w0 : World) (inj : Nat → Option Err) (cfail : Ev → Bool)
    (email kind sub : String) (days : Nat) (domain secret : String) :
    RunOut :=
  let b := provisionBody w0 inj cfail email kind sub domain secret
  { b with log := headerLog email kind sub domain days ++ b.log }

/-- The four teardown steps of the cleanup saga. -/
inductive CStep where
  | instanceStep : CStep
  | metadataStep : CStep
  | dnsStep : CStep
  | tunnelStep : CStep
  deriving DecidableEq, Repr

/-- Per-step cleanup outcome. -/
inductive COut where
  | okOut : COut
  | failedOut : COut
  | notFoundOut : COut
  deriving DecidableEq, Repr

/-- Modelled from the spec: TamesukeProvisioner.cleanup is invoked by
run_cleanup (src/api/services/cleanup_service.py lines 16-45) with
(vmid, tunnel_id, subdomain), but no cleanup method exists in
src/provisioner.py; this follows spec section 4.9 CleanupSaga and 4.6.
Four steps driven by the supplied identifiers, not by a ledger, each
independently guarded so one failure never blocks the next: stop
(failure swallowed) then delete the instance; delete the published
metadata; delete the DNS record matching the name (a missing record is
reported as a not-found outcome); delete the tunnel.  Never raises;
returns the world, one outcome per step, and the calls attempted. -/
def cleanup (w : World) (cfail : Ev → Bool) (vmid tunnelId : Nat)
    (sub domain : String) : World × List (CStep × COut) × List Ev :=
  let w1s := if cfail (Ev.lxcStop vmid) then w
             else { w with running := w.running.filter (fun x => x != vmid) }
  let o1 := if cfail (Ev.lxcDel vmid) then COut.failedOut else COut.okOut
  let w1 := if cfail (Ev.lxcDel vmid) then w1s
            else { w1s with vms := w1s.vms.filter (fun x => x != vmid) }
  let p := metaPath vmid
  let o2 := if cfail (Ev.fsDel p) then COut.failedOut else COut.okOut
  let w2 := if cfail (Ev.fsDel p) then w1
            else { w1 with files := w1.files.filter (fun f => f.1 != p) }
  let fqdn := sub ++ "." ++ domain
  let ms := w2.dsvc.records.filter (fun r => r.name == fqdn)
  let o3 := if ms.isEmpty then COut.notFoundOut
            else if ms.any (fun r => cfail (Ev.dnsDel r.id)) then COut.failedOut
            else COut.okOut
  let keep := w2.dsvc.records.filter
    (fun r => !(r.name == fqdn && !cfail (Ev.dnsDel r.id)))
  let w3 := { w2 with dsvc := { w2.dsvc with records := keep } }
  let o4 := if cfail (Ev.tunnelDel tunnelId) then COut.failedOut
            else COut.okOut
  let tkeep := w3.tsvc.tunnels.filter (fun t => t.id != tunnelId)
  let w4 := if cfail (Ev.tunnelDel tunnelId) then w3
            else { w3 with tsvc := { w3.tsvc with tunnels := tkeep } }
  (w4,
   [(CStep.instanceStep, o1), (CStep.metadataStep, o2),
    (CStep.dnsStep, o3), (CStep.tunnelStep, o4)],
   [Ev.lxcStop vmid, Ev.lxcDel vmid, Ev.fsDel p, Ev.dnsList fqdn] ++
     ms.map (fun r => Ev.dnsDel r.id) ++ [Ev.tunnelDel tunnelId])

/-- No injected step failures. -/
def noInj : Nat → Option Err := fun _ => none

/-- Inject error e at step k exactly. -/
def injOnly (k : Nat) (e : Err) : Nat → Option Err :=
  fun j => if j == k then some e else none

/-- No injected compensation failures. -/
def noCFail : Ev → Bool := fun _ => false

/-- The empty external platform set of the end-to-end test property:
nothing exists yet, the artifact store acknowledges PUTs with 200. -/
def w0empty : World :=
  { vms := [], running := [], tsvc := ⟨[], 0⟩, configs := [],
    tokenOf := fun t => "token-" ++ toString t, dsvc := ⟨[], 0⟩,
    files := [], fsPutStatus := 200, now := "2026-01-01T00:00:00Z" }

/-- The four compensation kinds. -/
inductive CK where
  | inst : CK
  | meta : CK
  | dns : CK
  | tun : CK
  deriving DecidableEq, Repr

/-- Which compensation kind an external call belongs to. -/
def ckindOfEv (e : Ev) : Option CK :=
  match e with
  | .lxcStop _ => some .inst
  | .lxcDel _ => some .inst
  | .fsDel _ => some .meta
  | .dnsDel _ => some .dns
  | .tunnelDel _ => some .tun
  | _ => none

/-- The compensation kind matching a ledger key. -/
def lkCK (k : LKey) : CK :=
  match k with
  | .tunnelId => .tun
  | .dnsRecordId => .dns
  | .vmid => .inst
  | .metadataUploaded => .meta

/-- Collapse consecutive equal elements (the two LXC calls of one
instance compensation become one kind). -/
def collapseDups : List CK → List CK
  | [] => []
  | [a] => [a]
  | a :: b :: rest =>
    if a == b then collapseDups (b :: rest)
    else a :: collapseDups (b :: rest)

/-- The compensation kinds a rollback trace touches, in call order. -/
def compKinds (evs : List Ev) : List CK :=
  collapseDups (evs.filterMap ckindOfEv)

/-- Ledger keys present after the steps before a failure at step k, read
off provision's append points. -/
def expectedKeys (k : Nat) : List LKey :=
  if k ≤ 2 then []
  else if k ≤ 5 then [.tunnelId]
  else if k ≤ 7 then [.tunnelId, .dnsRecordId]
  else [.tunnelId, .dnsRecordId, .vmid, .metadataUploaded]

/-- The compensation calls rollback makes after a failure at step k of a
run on the empty platform (ids as that run assigns them). -/
def expectedComps (k : Nat) : List Ev :=
  if k ≤ 2 then []
  else if k ≤ 5 then [Ev.tunnelDel 0]
  else if k ≤ 7 then [Ev.dnsDel 0, Ev.tunnelDel 0]
  else [Ev.lxcStop 9000, Ev.lxcDel 9000, Ev.fsDel (metaPath 9000),
    Ev.dnsDel 0, Ev.tunnelDel 0]

/-- Claim C3 as stated, at one snapshot: every ledger entry's resource
truly exists in the external systems at that point. -/
def ledgerSnapOk (p : List (LKey × Nat) × World) : Bool :=
  p.1.all (fun e =>
    match e.1 with
    | .tunnelId => p.2.tsvc.tunnels.any (fun t => t.id == e.2)
    | .dnsRecordId => p.2.dsvc.records.any (fun r => r.id == e.2)
    | .metadataUploaded =>
      p.2.files.any (fun f => f.1 == metaPath ((ledgerGet p.1 .vmid).getD 0))
    | .vmid => p.2.vms.contains e.2)

/-- The amended soundness predicate: as ledgerSnapOk, except that the
vmid entry may also be present while no instance exists yet (it is
recorded one step before the clone). -/
def ledgerSnapOkAmended (p : List (LKey × Nat) × World) : Bool :=
  p.1.all (fun e =>
    match e.1 with
    | .tunnelId => p.2.tsvc.tunnels.any (fun t => t.id == e.2)
    | .dnsRecordId => p.2.dsvc.records.any (fun r => r.id == e.2)
    | .metadataUploaded =>
      p.2.files.any (fun f => f.1 == metaPath ((ledgerGet p.1 .vmid).getD 0))
    | .vmid => p.2.vms.contains e.2 || p.2.vms.isEmpty)

/-- Completeness at one snapshot of a run started on the empty platform:
every resource that exists is in the ledger. -/
def snapComplete (p : List (LKey × Nat) × World) : Bool :=
  p.2.tsvc.tunnels.all
    (fun t => p.1.any (fun e => e.1 == LKey.tunnelId && e.2 == t.id)) &&
  p.2.dsvc.records.all
    (fun r => p.1.any (fun e => e.1 == LKey.dnsRecordId && e.2 == r.id)) &&
  p.2.files.all (fun _ => p.1.any (fun e => e.1 == LKey.metadataUploaded)) &&
  p.2.vms.all (fun v => p.1.any (fun e => e.1 == LKey.vmid && e.2 == v))

/-- Claim C8 as stated: validation fails exactly when the length exceeds
12, or some character lies outside the class, or the name starts or ends
with a hyphen. -/
def c8Stated (s : String) : Prop :=
  ((validateSubdomain s).isOk = false) ↔
    (12 < s.length ∨ (∃ c ∈ s.data, subChar c = false) ∨
      s.data.head? = some '-' ∨ s.data.getLast? = some '-')

/-- The end-to-end request of the test property, run from the empty
platform set: email a@b.com, kind nginx, name demo7, 7 days. -/
def runDemo (inj : Nat → Option Err) (cfail : Ev → Bool) : RunOut :=
  provision w0empty inj cfail "a@b.com" "nginx" "demo7" 7 "persys.jp" "sec"

/-- A broker state holding exactly one pre-existing tunnel under the
target name. -/
def svcT1 : TunnelSvc := ⟨[⟨1, "service-9000-demo7", "s0"⟩], 2⟩

/-- A delete-response oracle under which deleting identifier 1 fails
(the broker answers not-found, for example because another actor
removed it between the list and the delete). -/
def delFail1 : Nat → Bool := fun i => i == 1

/-- A zone state holding exactly one pre-existing record under the
target fqdn. -/
def svcD1 : DnsSvc := ⟨[⟨1, "demo7.persys.jp", "old.example", 1, true⟩], 2⟩

/-- A concrete metadata document. -/
def m0 : Metadata :=
  ⟨9000, "demo7", "demo7", "a@b.com", "nginx", "https://demo7.persys.jp",
    "token-0", "2026-01-01T00:00:00Z"⟩

/-- The empty platform whose artifact store answers PUT with 202
Accepted (a success in HTTP terms). -/
def w202 : World := { w0empty with fsPutStatus := 202 }

/-- Claim C6 as stated: publish succeeds exactly on 2xx responses. -/
def c6Stated (w : World) (v : Nat) (m : Metadata) : Prop :=
  ((upload_metadata w v m).1.isOk = true) ↔
    (200 ≤ w.fsPutStatus ∧ w.fsPutStatus < 300)

/-! Helper lemmas. -/

/-- Leaving the wait loop once the elapsed time reaches the deadline. -/
theorem wfr_stop (p : Nat → Option Nat) (d : Nat → Nat) (T i e : Nat)
    (h : ¬ e < T) : waitForReady p d T i e = ([], .error .timeoutErr) := by
  rw [waitForReady]; simp [h]

/-- A ready probe returns immediately. -/
theorem wfr_ready (p : Nat → Option Nat) (d : Nat → Nat) (T i e : Nat)
    (h : e < T) (hr : probeReady (p i) = true) :
    waitForReady p d T i e = ([(i, e)], .ok ()) := by
  rw [waitForReady]; simp [h, hr]

/-- A not-ready probe sleeps 10 seconds and loops. -/
theorem wfr_step (p : Nat → Option Nat) (d : Nat → Nat) (T i e : Nat)
    (h : e < T) (hr : probeReady (p i) = false) :
    waitForReady p d T i e =
      ((i, e) :: (waitForReady p d T (i + 1) (e + d i + 10)).1,
       (waitForReady p d T (i + 1) (e + d i + 10)).2) := by
  rw [waitForReady]; simp [h, hr]

/-- The invariants of the readiness loop, by induction on the remaining
time: every issued probe is issued strictly before the deadline; an
empty probe list means timeout; success holds exactly when the last
issued probe is ready; every non-final probe is not ready; the timeout
error holds exactly when no issued probe is ready; the first probe
carries the starting index and time; consecutive probes are spaced by
the attempt duration plus the fixed 10-second sleep; and the outcome is
either success or the timeout error. -/
theorem wfr_rec (p : Nat → Option Nat) (d : Nat → Nat) (T : Nat) :
    ∀ n i e, T - e ≤ n →
      (∀ x ∈ (waitForReady p d T i e).1, x.2 < T) ∧
      ((waitForReady p d T i e).1 = [] →
        (waitForReady p d T i e).2 = .error .timeoutErr) ∧
      ((waitForReady p d T i e).2 = .ok () ↔
        ∃ x, (waitForReady p d T i e).1.getLast? = some x ∧
          probeReady (p x.1) = true) ∧
      (∀ x ∈ (waitForReady p d T i e).1.dropLast, probeReady (p x.1) = false) ∧
      ((waitForReady p d T i e).2 = .error .timeoutErr ↔
        ∀ x ∈ (waitForReady p d T i e).1, probeReady (p x.1) = false) ∧
      ((waitForReady p d T i e).1.head? = some (i, e) ∨
        (waitForReady p d T i e).1 = []) ∧
      List.Chain' (fun a b => b.1 = a.1 + 1 ∧ b.2 = a.2 + d a.1 + 10)
        (waitForReady p d T i e).1 ∧
      ((waitForReady p d T i e).2 = .ok () ∨
        (waitForReady p d T i e).2 = .error .timeoutErr) := by
  intro n
  induction n with
  | zero =>
    intro i e he
    have h : ¬ e < T := by omega
    rw [wfr_stop p d T i e h]
    simp
  | succ n ih =>
    intro i e he
    by_cases h1 : e < T
    · by_cases h2 : probeReady (p i) = true
      · rw [wfr_ready p d T i e h1 h2]
        refine ⟨by simp [h1], by simp, by simp [h2], by simp, by simp [h2],
          by simp, by simp⟩
      · have h2' : probeReady (p i) = false := by simp [h2]
        rw [wfr_step p d T i e h1 h2']
        have ihr := ih (i + 1) (e + d i + 10) (by omega)
        obtain ⟨ha, hf, hb, hc, hd, hh, hch, hdi⟩ := ihr
        set r := waitForReady p d T (i + 1) (e + d i + 10) with hr
        refine ⟨?_, ?_, ?_, ?_, ?_, ?_, ?_, ?_⟩
        · intro x hx
          rcases List.mem_cons.mp hx with rfl | hx
          · exact h1
          · exact ha x hx
        · intro hnil; exact absurd hnil (List.cons_ne_nil _ _)
        · rcases hl : r.1 with _ | ⟨y, ys⟩
          · rw [hl] at hb hf
            simp only [hl]
            constructor
            · intro hok
              rw [hf rfl] at hok; cases hok
            · rintro ⟨x, hx, hrx⟩
              simp only [List.getLast?_singleton] at hx
              cases hx
              rw [h2'] at hrx; cases hrx
          · rw [hl] at hb
            simp only [hl, List.getLast?_cons_cons]
            exact hb
        · rcases hl : r.1 with _ | ⟨y, ys⟩
          · simp [hl]
          · intro x hx
            rw [hl] at hc
            simp only [hl, List.dropLast_cons₂] at hx
            rcases List.mem_cons.mp hx with rfl | hx'
            · exact h2'
            · exact hc x hx'
        · constructor
          · intro herr x hx
            rcases List.mem_cons.mp hx with rfl | hx
            · exact h2'
            · exact (hd.mp herr) x hx
          · intro hall
            exact hd.mpr (fun x hx => hall x (List.mem_cons_of_mem _ hx))
        · left; rfl
        · rw [List.chain'_cons']
          refine ⟨?_, hch⟩
          intro y hy
          rcases hh with hh | hh
          · rw [hh] at hy
            cases hy
            exact ⟨rfl, rfl⟩
          · rw [hh] at hy; cases hy
        · exact hdi
    · rw [wfr_stop p d T i e h1]
      simp

/-- The regex fails exactly when the constrained core is empty or holds
a character outside the class. -/
theorem pyMatchSub_eq_false_iff (l : List Char) :
    pyMatchSub l = false ↔
      (coreChars l = [] ∨ ∃ c ∈ coreChars l, subChar c = false) := by
  unfold pyMatchSub coreChars
  by_cases h : l.getLast? = some '\n'
  · have hl : l.dropLast ++ ['\n'] = l :=
      List.dropLast_append_getLast? '\n' (by simp [h])
    have hall : l.all subChar = false := by
      rw [← hl, List.all_append]
      simp [subChar]
    rw [if_pos h]
    simp only [h, hall]
    simp [List.all_eq_true, List.isEmpty_iff]
    tauto
  · rw [if_neg h]
    have hbeq : (l.getLast? == some '\n') = false := by
      simp [h]
    simp only [hbeq]
    simp [List.all_eq_true, List.isEmpty_iff]
    tauto

/-- Pre-clean of a broker state holding exactly one tunnel under the
target name, whose delete the broker answers normally. -/
theorem tunnelPreClean_single (svc : TunnelSvc) (df : Nat → Bool)
    (name : String) (t0 : TunnelRec)
    (h : svc.tunnels.filter (fun t => t.name == name) = [t0])
    (hdf : df t0.id = false) :
    tunnelPreClean svc df name =
      .ok ⟨svc.tunnels.filter (fun t => t.id != t0.id), svc.nextId⟩ := by
  have ht0 : (t0.name == name) = true := by
    have hm : t0 ∈ svc.tunnels.filter (fun t => t.name == name) := by
      rw [h]; exact List.mem_singleton_self _
    exact (List.mem_filter.mp hm).2
  unfold tunnelPreClean
  rw [h]
  unfold tunnelPreCleanGo
  rw [if_pos ht0]
  unfold tunnelDelete
  rw [if_neg (by simp [hdf])]
  rfl

/-- Pre-clean of a zone state holding exactly one record under the
target fqdn, whose delete the zone answers normally. -/
theorem dnsPreClean_single (svc : DnsSvc) (df : Nat → Bool)
    (fqdn : String) (r0 : DnsRec)
    (h : svc.records.filter (fun r => r.name == fqdn) = [r0])
    (hdf : df r0.id = false) :
    dnsPreClean svc df fqdn =
      .ok ⟨svc.records.filter (fun r => r.id != r0.id), svc.nextId⟩ := by
  have hr0 : (r0.name == fqdn) = true := by
    have hm : r0 ∈ svc.records.filter (fun r => r.name == fqdn) := by
      rw [h]; exact List.mem_singleton_self _
    exact (List.mem_filter.mp hm).2
  unfold dnsPreClean
  rw [h]
  unfold dnsPreCleanGo
  rw [if_pos hr0]
  unfold dnsDelete
  rw [if_neg (by simp [hdf])]
  rfl

/-! The claims. -/

/-- C1, counterexample: the run in which step 9 (instance start) raises.
The rollback compensations are NOT called in the strict reverse of the
order in which the ledger entries were recorded: the ledger records the
instance (vmid) entry before the metadata entry during step 7, yet
rollback compensates the instance before the metadata. -/
theorem c1_rollback_order_counterexample :
    compKinds (runDemo (injOnly 9 (Err.injected 9)) noCFail).comps ≠
      ((runDemo (injOnly 9 (Err.injected 9)) noCFail).ledger.map
        (fun p => lkCK p.1)).reverse := by decide

/-- C1, amended: for every step k in 1..10, if step k raises e then
rollback runs, exactly the compensations matching the ledger entries
recorded by the steps before k are called, in the fixed source order
instance, metadata, DNS, tunnel (the strict reverse of the resource
creation order, which differs from the reverse of the recording order
in swapping the instance and metadata compensations), compensation
failures (cfail arbitrary) are swallowed, and the original error e is
re-raised unchanged. -/
theorem c1_rollback_order_amended (k : Fin 10) (e : Err) (cfail : Ev → Bool) :
    (runDemo (injOnly (k.1 + 1) e) cfail).result = .error e ∧
    (runDemo (injOnly (k.1 + 1) e) cfail).rolledBack = true ∧
    (runDemo (injOnly (k.1 + 1) e) cfail).ledger.map Prod.fst =
      expectedKeys (k.1 + 1) ∧
    (runDemo (injOnly (k.1 + 1) e) cfail).comps = expectedComps (k.1 + 1) ∧
    compKinds (runDemo (injOnly (k.1 + 1) e) cfail).comps =
      [CK.inst, CK.meta, CK.dns, CK.tun].filter
        (fun c => ((expectedKeys (k.1 + 1)).map lkCK).contains c) := by
  fin_cases k <;> exact ⟨rfl, rfl, rfl, rfl, rfl⟩

/-- C2 (cleanup modelled from the spec, the method being absent from
src/provisioner.py): for every platform state and every combination of
injected remote failures, CleanupSaga performs all four teardown steps
in order with one outcome each, attempts every external call of every
step regardless of earlier failures (the trace always ends with the
tunnel delete), and reports a not-found outcome for DNS when no record
matches the name; it returns normally by construction. -/
theorem c2_cleanup_best_effort (w : World) (cfail : Ev → Bool)
    (vmid tid : Nat) (sub domain : String) :
    ((cleanup w cfail vmid tid sub domain).2.1.map Prod.fst =
      [CStep.instanceStep, CStep.metadataStep, CStep.dnsStep,
       CStep.tunnelStep]) ∧
    ((cleanup w cfail vmid tid sub domain).2.2 =
      [Ev.lxcStop vmid, Ev.lxcDel vmid, Ev.fsDel (metaPath vmid),
       Ev.dnsList (sub ++ "." ++ domain)] ++
        (w.dsvc.records.filter
          (fun r => r.name == sub ++ "." ++ domain)).map
          (fun r => Ev.dnsDel r.id) ++ [Ev.tunnelDel tid]) ∧
    (w.dsvc.records.filter (fun r => r.name == sub ++ "." ++ domain) = [] →
      ((cleanup w cfail vmid tid sub domain).2.1)[2]? =
        some (CStep.dnsStep, COut.notFoundOut)) := by
  by_cases h1 : cfail (Ev.lxcStop vmid) <;>
    by_cases h2 : cfail (Ev.lxcDel vmid) <;>
      by_cases h3 : cfail (Ev.fsDel (metaPath vmid)) <;>
        refine ⟨by simp [cleanup, h1, h2, h3],
          by simp [cleanup, h1, h2, h3], ?_⟩ <;>
          · intro hms
            simp [cleanup, h1, h2, h3, hms]

/-- C2, witness: the cleanup of the end-to-end identifiers on the empty
platform, where the DNS record does not exist, completes with all four
steps and a not-found DNS outcome. -/
theorem c2_cleanup_best_effort_witness :
    ((cleanup w0empty noCFail 9000 5 "demo7" "persys.jp").2.1.map Prod.fst =
      [CStep.instanceStep, CStep.metadataStep, CStep.dnsStep,
       CStep.tunnelStep]) ∧
    ((cleanup w0empty noCFail 9000 5 "demo7" "persys.jp").2.1)[2]? =
      some (CStep.dnsStep, COut.notFoundOut) :=
  ⟨(c2_cleanup_best_effort w0empty noCFail 9000 5 "demo7" "persys.jp").1,
   (c2_cleanup_best_effort w0empty noCFail 9000 5 "demo7" "persys.jp").2.2
     (by decide)⟩

/-- C3, counterexample: in the fully successful end-to-end run, the
snapshot taken right after step 7 (metadata upload) shows a ledger
carrying the instance (vmid) entry while no instance exists on the
compute platform: the entry is recorded one step before the clone, so
the ledger does not reflect exactly the truly existing resources. -/
theorem c3_ledger_exactness_counterexample :
    ((runDemo noInj noCFail).hist[6]?).map ledgerSnapOk = some false ∧
    ((runDemo noInj noCFail).hist[6]?).map
      (fun p => p.1.any (fun q => q.1 == LKey.vmid) && p.2.vms.isEmpty) =
      some true := by decide

/-- C3, amended: at every step boundary of every run from the empty
platform (each injected failure point, and the successful run), every
tunnel, DNS and metadata ledger entry matches a truly existing
resource, every existing resource is in the ledger, and the instance
entry matches an existing instance except that it may be present one
step early, before the clone has run. -/
theorem c3_ledger_exactness_amended (k : Fin 10) (e : Err)
    (cfail : Ev → Bool) :
    ((runDemo (injOnly (k.1 + 1) e) cfail).hist.all
      (fun p => ledgerSnapOkAmended p && snapComplete p)) = true ∧
    ((runDemo noInj noCFail).hist.all
      (fun p => ledgerSnapOkAmended p && snapComplete p)) = true := by
  fin_cases k <;> exact ⟨rfl, rfl⟩

/-- C4, counterexample: in the successful end-to-end run the ledger's
four entries are NOT in the order (tunnel, dns, metadata, instance):
the instance (vmid) entry is recorded before the metadata entry. -/
theorem c4_end_to_end_counterexample :
    (runDemo noInj noCFail).ledger.map Prod.fst ≠
      [LKey.tunnelId, LKey.dnsRecordId, LKey.metadataUploaded,
       LKey.vmid] := by decide

/-- C4, amended: the request (a@b.com, nginx, demo7, 7 days) against the
empty platform set returns ProvisioningResult(status active, url
https://demo7.persys.jp) and leaves a ledger of exactly 4 entries, in
the recording order tunnel, dns, instance, metadata. -/
theorem c4_end_to_end_amended :
    (runDemo noInj noCFail).result =
      .ok ⟨9000, 0, "https://demo7.persys.jp", "active"⟩ ∧
    (runDemo noInj noCFail).ledger =
      [(LKey.tunnelId, 0), (LKey.dnsRecordId, 0), (LKey.vmid, 9000),
       (LKey.metadataUploaded, 1)] := by decide

/-- C5, counterexample: createOrReplace does not ignore a not-found
error on the pre-clean delete: with one pre-existing tunnel under the
target name whose delete the broker answers with not-found, the call
raises instead of creating the replacement. -/
theorem c5_create_or_replace_counterexample :
    create_tunnel svcT1 delFail1 "sec" "service-9000-demo7" =
      .error .notFound ∧
    svcT1.tunnels.filter (fun t => t.name == "service-9000-demo7") =
      [(⟨1, "service-9000-demo7", "s0"⟩ : TunnelRec)] ∧
    delFail1 1 = true := by decide

/-- C5, amended: createOrReplace for tunnel and DNS lists by exact name
and deletes every match, but a delete error propagates (the pre-clean
is unguarded); when the single pre-existing resource's delete succeeds,
exactly one resource with the target name exists afterwards, the old
identifier is gone and the fresh one is present. -/
theorem c5_create_or_replace_amended (tsvc : TunnelSvc) (dsvc : DnsSvc)
    (df dg : Nat → Bool) (secret name sub domain : String)
    (t0 : TunnelRec) (r0 : DnsRec) (tid0 : Nat)
    (ht : tsvc.tunnels.filter (fun t => t.name == name) = [t0])
    (hdf : df t0.id = false)
    (htf : t0.id ≠ tsvc.nextId)
    (hr : dsvc.records.filter (fun r => r.name == sub ++ "." ++ domain) = [r0])
    (hdg : dg r0.id = false)
    (hrf : r0.id ≠ dsvc.nextId) :
    (create_tunnel tsvc df secret name =
      .ok (tsvc.nextId,
        ⟨tsvc.tunnels.filter (fun t => t.id != t0.id) ++
          [(⟨tsvc.nextId, name, secret⟩ : TunnelRec)], tsvc.nextId + 1⟩) ∧
     (tsvc.tunnels.filter (fun t => t.id != t0.id) ++
        [(⟨tsvc.nextId, name, secret⟩ : TunnelRec)]).filter
        (fun t => t.name == name) = [(⟨tsvc.nextId, name, secret⟩ : TunnelRec)] ∧
     (∀ t ∈ tsvc.tunnels.filter (fun t => t.id != t0.id) ++
        [(⟨tsvc.nextId, name, secret⟩ : TunnelRec)], t.id ≠ t0.id)) ∧
    (create_dns_record dsvc dg sub domain tid0 =
      .ok (dsvc.nextId,
        ⟨dsvc.records.filter (fun r => r.id != r0.id) ++
          [(⟨dsvc.nextId, sub ++ "." ++ domain,
            toString tid0 ++ ".cfargotunnel.com", 1, true⟩ : DnsRec)],
         dsvc.nextId + 1⟩) ∧
     (dsvc.records.filter (fun r => r.id != r0.id) ++
        [(⟨dsvc.nextId, sub ++ "." ++ domain,
          toString tid0 ++ ".cfargotunnel.com", 1, true⟩ : DnsRec)]).filter
        (fun r => r.name == sub ++ "." ++ domain) =
       [(⟨dsvc.nextId, sub ++ "." ++ domain,
         toString tid0 ++ ".cfargotunnel.com", 1, true⟩ : DnsRec)] ∧
     (∀ r ∈ dsvc.records.filter (fun r => r.id != r0.id) ++
        [(⟨dsvc.nextId, sub ++ "." ++ domain,
          toString tid0 ++ ".cfargotunnel.com", 1, true⟩ : DnsRec)],
        r.id ≠ r0.id)) := by
  refine ⟨⟨?_, ?_, ?_⟩, ⟨?_, ?_, ?_⟩⟩
  · unfold create_tunnel
    rw [tunnelPreClean_single tsvc df name t0 ht hdf]
  · rw [List.filter_append, List.filter_comm, ht]
    simp
  · intro t htm
    rcases List.mem_append.mp htm with hm | hm
    · have hb := (List.mem_filter.mp hm).2
      simpa using hb
    · rw [List.mem_singleton] at hm
      subst hm
      exact fun hh => htf hh.symm
  · unfold create_dns_record
    dsimp only
    rw [dnsPreClean_single dsvc dg (sub ++ "." ++ domain) r0 hr hdg]
  · rw [List.filter_append, List.filter_comm, hr]
    simp
  · intro r hrm
    rcases List.mem_append.mp hrm with hm | hm
    · have hb := (List.mem_filter.mp hm).2
      simpa using hb
    · rw [List.mem_singleton] at hm
      subst hm
      exact fun hh => hrf hh.symm

/-- C5, witness: one pre-existing tunnel and one pre-existing record
under the target names, all deletes answered normally: each call
replaces its resource. -/
theorem c5_create_or_replace_witness :
    (svcT1.tunnels.filter (fun t => t.name == "service-9000-demo7") =
      [(⟨1, "service-9000-demo7", "s0"⟩ : TunnelRec)]) ∧
    (svcD1.records.filter (fun r => r.name == "demo7" ++ "." ++ "persys.jp") =
      [(⟨1, "demo7.persys.jp", "old.example", 1, true⟩ : DnsRec)]) ∧
    (create_tunnel svcT1 (fun _ => false) "sec" "service-9000-demo7" =
      .ok (svcT1.nextId,
        ⟨svcT1.tunnels.filter (fun t => t.id != 1) ++
          [(⟨svcT1.nextId, "service-9000-demo7", "sec"⟩ : TunnelRec)],
         svcT1.nextId + 1⟩)) ∧
    (create_dns_record svcD1 (fun _ => false) "demo7" "persys.jp" 0 =
      .ok (svcD1.nextId,
        ⟨svcD1.records.filter (fun r => r.id != 1) ++
          [(⟨svcD1.nextId, "demo7" ++ "." ++ "persys.jp",
            toString 0 ++ ".cfargotunnel.com", 1, true⟩ : DnsRec)],
         svcD1.nextId + 1⟩)) :=
  ⟨by decide, by decide,
   (c5_create_or_replace_amended svcT1 svcD1 (fun _ => false) (fun _ => false)
     "sec" "service-9000-demo7" "demo7" "persys.jp"
     ⟨1, "service-9000-demo7", "s0"⟩
     ⟨1, "demo7.persys.jp", "old.example", 1, true⟩ 0
     (by decide) (by decide) (by decide) (by decide) (by decide)
     (by decide)).1.1,
   (c5_create_or_replace_amended svcT1 svcD1 (fun _ => false) (fun _ => false)
     "sec" "service-9000-demo7" "demo7" "persys.jp"
     ⟨1, "service-9000-demo7", "s0"⟩
     ⟨1, "demo7.persys.jp", "old.example", 1, true⟩ 0
     (by decide) (by decide) (by decide) (by decide) (by decide)
     (by decide)).2.1⟩

/-- C6, counterexample: a 202 Accepted response is a 2xx success, yet
publish raises on it, so success is not "any 2xx status". -/
theorem c6_upload_status_counterexample : ¬ c6Stated w202 9000 m0 := by
  unfold c6Stated
  decide

/-- C6, amended: publish serializes the document, PUTs it to the path
deterministic in the instance id, succeeds exactly on a 200, 201 or 204
response (so some 2xx statuses, e.g. 202, raise), and raises the
UploadError carrying the offending status otherwise. -/
theorem c6_upload_status_amended (w : World) (v : Nat) (m : Metadata) :
    ((upload_metadata w v m).1.isOk = true ↔
      (w.fsPutStatus = 200 ∨ w.fsPutStatus = 201 ∨ w.fsPutStatus = 204)) ∧
    (upload_metadata w v m).2 = [Ev.fsPut (metaPath v)] ∧
    ((upload_metadata w v m).1.isOk = false →
      (upload_metadata w v m).1 = .error (.uploadFailed w.fsPutStatus)) ∧
    (∀ w', (upload_metadata w v m).1 = .ok w' →
      w'.files = w.files.filter (fun f => f.1 != metaPath v) ++
        [(metaPath v, metadataJson m)]) := by
  unfold upload_metadata
  by_cases h : (w.fsPutStatus == 200 || w.fsPutStatus == 201 ||
      w.fsPutStatus == 204) = true
  · rw [if_pos h]
    simp only [beq_iff_eq, Bool.or_eq_true] at h
    refine ⟨?_, rfl, ?_, ?_⟩
    · simp [Except.isOk, Except.toBool]
      tauto
    · intro hk
      simp [Except.isOk, Except.toBool] at hk
    · intro w' hw'
      cases hw'
      rfl
  · rw [if_neg h]
    simp only [beq_iff_eq, Bool.or_eq_true] at h
    refine ⟨?_, rfl, ?_, ?_⟩
    · constructor
      · intro hk
        simp [Except.isOk, Except.toBool] at hk
      · intro hk
        exact absurd (by tauto) h
    · intro _
      rfl
    · intro w' hw'
      cases hw'

/-- C7: the readiness waiter issues every probe strictly before the
deadline, returns success exactly when the last issued probe answers a
status below 500 (returning at that first ready probe, every earlier
probe — connection error or status 500+ — being not ready and followed
by a retry after the attempt duration plus a fixed 10 second sleep),
and otherwise raises precisely the timeout error once the elapsed time
reaches the deadline. -/
theorem c7_wait_until_ready (p : Nat → Option Nat) (d : Nat → Nat)
    (T : Nat) :
    (∀ x ∈ (waitForReady p d T 0 0).1, x.2 < T) ∧
    ((waitForReady p d T 0 0).2 = .ok () ↔
      ∃ x, (waitForReady p d T 0 0).1.getLast? = some x ∧
        probeReady (p x.1) = true) ∧
    (∀ x ∈ (waitForReady p d T 0 0).1.dropLast,
      probeReady (p x.1) = false) ∧
    ((waitForReady p d T 0 0).2 = .error .timeoutErr ↔
      ∀ x ∈ (waitForReady p d T 0 0).1, probeReady (p x.1) = false) ∧
    ((waitForReady p d T 0 0).2 = .ok () ∨
      (waitForReady p d T 0 0).2 = .error .timeoutErr) ∧
    List.Chain' (fun a b => b.1 = a.1 + 1 ∧ b.2 = a.2 + d a.1 + 10)
      (waitForReady p d T 0 0).1 := by
  obtain ⟨ha, _, hb, hc, hd, _, hch, hdi⟩ := wfr_rec p d T T 0 0 (by omega)
  exact ⟨ha, hb, hc, hd, hdi, hch⟩

/-- C8, counterexample: the name consisting of demo followed by a
newline contains a character outside the class, yet validation accepts
it — the regex dollar anchor tolerates one trailing newline. -/
theorem c8_validate_counterexample : ¬ c8Stated "demo\n" := by
  unfold c8Stated
  decide

/-- C8, amended: validation raises exactly when the length exceeds 12,
or the core of the name (the name less one optional trailing newline)
is empty or holds a character outside lowercase letters, digits and
hyphen, or the name starts or ends with a hyphen; it is a pure
function, accepts demo-7, rejects DEMO, -demo, demo-, and every name of
13 or more characters. -/
theorem c8_validate_amended (s : String) :
    ((validateSubdomain s).isOk = false ↔
      (12 < s.length ∨ coreChars s.data = [] ∨
        (∃ c ∈ coreChars s.data, subChar c = false) ∨
        s.data.head? = some '-' ∨ s.data.getLast? = some '-')) ∧
    (validateSubdomain "demo-7").isOk = true ∧
    (validateSubdomain "DEMO").isOk = false ∧
    (validateSubdomain "-demo").isOk = false ∧
    (validateSubdomain "demo-").isOk = false ∧
    (∀ t : String, 13 ≤ t.length → (validateSubdomain t).isOk = false) := by
  refine ⟨?_, by decide, by decide, by decide, by decide, ?_⟩
  · unfold validateSubdomain
    by_cases h1 : 12 < s.length
    · simp [h1, Except.isOk, Except.toBool]
    · rw [if_neg h1]
      by_cases h2 : pyMatchSub s.data = true
      · rw [if_neg (by simp [h2])]
        have hno := (pyMatchSub_eq_false_iff s.data)
        by_cases h3 : (s.data.head? == some '-' ||
            s.data.getLast? == some '-') = true
        · rw [if_pos h3]
          simp only [Except.isOk]
          simp at h3
          constructor
          · intro _
            rcases h3 with h3 | h3
            · exact Or.inr (Or.inr (Or.inr (Or.inl h3)))
            · exact Or.inr (Or.inr (Or.inr (Or.inr h3)))
          · intro _; rfl
        · rw [if_neg h3]
          simp only [Except.isOk]
          simp at h3
          constructor
          · intro hk; cases hk
          · intro hk
            rcases hk with hk | hk | hk | hk | hk
            · exact absurd hk h1
            · exact absurd (hno.mpr (Or.inl hk)) (by simp [h2])
            · exact absurd (hno.mpr (Or.inr hk)) (by simp [h2])
            · exact absurd hk h3.1
            · exact absurd hk h3.2
      · have h2' : pyMatchSub s.data = false := by
          simp at h2; exact h2
        rw [if_pos (by simp [h2'])]
        simp only [Except.isOk]
        have hc := (pyMatchSub_eq_false_iff s.data).mp h2'
        constructor
        · intro _
          rcases hc with h | h
          · exact Or.inr (Or.inl h)
          · exact Or.inr (Or.inr (Or.inl h))
        · intro _; rfl
  · intro t ht
    unfold validateSubdomain
    rw [if_pos (by omega)]
    rfl

/-- C9: validate rejects the empty string: its length does not exceed
12 and it neither starts nor ends with a hyphen, but the regex — which
requires at least one class character — fails to match, so the charset
ValidationError is raised. -/
theorem c9_empty_name_rejected :
    validateSubdomain "" = .error .validationCharset ∧
    ¬ 12 < ("" : String).length ∧
    ("" : String).data.head? ≠ some '-' ∧
    ("" : String).data.getLast? ≠ some '-' ∧
    pyMatchSub ("" : String).data = false := by decide

/-- C10: two provisioning runs differing only in duration_days produce
the same result, the same final platform state (published metadata
document included), the same ledger, the same external-call and
compensation traces, the same snapshots and the same failure point:
duration_days flows only into the printed header. -/
theorem c10_duration_independent (w0 : World) (inj : Nat → Option Err)
    (cfail : Ev → Bool) (email kind sub domain secret : String)
    (d1 d2 : Nat) :
    (provision w0 inj cfail email kind sub d1 domain secret).result =
      (provision w0 inj cfail email kind sub d2 domain secret).result ∧
    (provision w0 inj cfail email kind sub d1 domain secret).world =
      (provision w0 inj cfail email kind sub d2 domain secret).world ∧
    (provision w0 inj cfail email kind sub d1 domain secret).ledger =
      (provision w0 inj cfail email kind sub d2 domain secret).ledger ∧
    (provision w0 inj cfail email kind sub d1 domain secret).trace =
      (provision w0 inj cfail email kind sub d2 domain secret).trace ∧
    (provision w0 inj cfail email kind sub d1 domain secret).comps =
      (provision w0 inj cfail email kind sub d2 domain secret).comps ∧
    (provision w0 inj cfail email kind sub d1 domain secret).rolledBack =
      (provision w0 inj cfail email kind sub d2 domain secret).rolledBack ∧
    (provision w0 inj cfail email kind sub d1 domain secret).failWorld =
      (provision w0 inj cfail email kind sub d2 domain secret).failWorld ∧
    (provision w0 inj cfail email kind sub d1 domain secret).hist =
      (provision w0 inj cfail email kind sub d2 domain secret).hist ∧
    (provision w0 inj cfail email kind sub d1 domain secret).world.files =
      (provision w0 inj cfail email kind sub d2 domain secret).world.files :=
  ⟨rfl, rfl, rfl, rfl, rfl, rfl, rfl, rfl, rfl⟩

end Tamesuke
